import Mathlib

/-!
A shallow embedding, in Lean 4, of the content classification and guarantee
pipeline of `morningglow.py` (classes `FactualAccuracyGuardian`,
`EmotionalSafetyFilter`, `ContentGuarantee`, `SilentGuardian` and the
top-level flow `sacred_morning_flow_with_accuracy`), together with theorems
settling the behavioural claims about that pipeline.

Conventions of the embedding:
* Python dicts for articles become the structure `Article` with `Option String`
  fields; `article.get(k) or ''` becomes `Option.getD · ""` (so a missing key,
  a `None` value and an empty string all normalise to `""`, as in the source).
* Python's `needle in haystack` substring test becomes `strHasSub`, and
  `str.lower()` becomes `lowerStr` (ASCII case mapping; every keyword constant
  in the source is ASCII).
* The clickbait and crisis regexes of the source contain no metacharacters
  (they are literal phrases searched case-insensitively in an already
  lower-cased text), so `re.search(p, text, re.IGNORECASE)` is embedded as the
  substring test of the literal pattern.
* `random.sample(pool, k)` is embedded by abstracting over a `sample`
  function; the predicate `SampleOK` captures the contract of
  `random.sample` (result has exactly the requested length and draws its
  elements from the pool) that the proofs rely on.
-/

namespace MorningGlow

/-- ASCII lower-casing of a string, character by character (the embedding of
`str.lower()`; all keyword constants in the source are ASCII). -/
def lowerStr (s : String) : String := String.mk (s.toList.map Char.toLower)

/-- The embedding of Python's substring operator `needle in hay`. -/
def strHasSub (hay needle : String) : Bool :=
  decide (needle.toList <:+: hay.toList)

/-- An article record (`Dict` in the source).  Fields that the pipeline reads
with `article.get(...)` are `Option String`; `amulya_categories` is the list
attached by the safety filter on acceptance. -/
structure Article where
  title : Option String := none
  description : Option String := none
  content : Option String := none
  url : Option String := none
  source : Option String := none
  published_at : Option String := none
  summary : Option String := none
  amulya_categories : List String := []
deriving Repr, DecidableEq

/-- `(article.get(field) or '').lower()`. -/
def getLow (f : Option String) : String := lowerStr (f.getD "")

/-- `full_text = f"{title} {description} {content}"` over the lower-cased
fields, as built identically in `check_factual_accuracy`,
`check_category_match` and `check_emotional_safety`. -/
def full_text (a : Article) : String :=
  getLow a.title ++ " " ++ getLow a.description ++ " " ++ getLow a.content

/-! ## FactualAccuracyGuardian (source lines 1076-1164) -/

/-- `FactualAccuracyGuardian.SPECULATION_KEYWORDS`. -/
def SPECULATION_KEYWORDS : List String := [
  "might", "could", "may", "possibly", "allegedly", "rumor", "rumour",
  "unconfirmed", "speculation", "claims without evidence", "anonymous sources",
  "insider says", "reportedly", "sources say", "could be", "might be",
  "potential", "preliminary", "early study", "early results"
]

/-- `FactualAccuracyGuardian.CLICKBAIT_PATTERNS`; every pattern is a literal
phrase (no regex metacharacters), searched case-insensitively in the already
lower-cased text, hence embedded as substring targets. -/
def CLICKBAIT_PATTERNS : List String := [
  "you won\x27t believe",
  "shocking",
  "miracle cure",
  "doctors hate",
  "one weird trick",
  "this will blow your mind",
  "secret that",
  "what happens next"
]

/-- `FactualAccuracyGuardian.UNVERIFIED_MEDICAL_KEYWORDS`. -/
def UNVERIFIED_MEDICAL_KEYWORDS : List String := [
  "breakthrough cure",
  "miracle treatment",
  "revolutionary cure",
  "cancer cured",
  "aging reversed"
]

/-- `FactualAccuracyGuardian.VERIFICATION_MARKERS`. -/
def VERIFICATION_MARKERS : List String := [
  "study published",
  "peer-reviewed",
  "fda approved",
  "clinical trial",
  "research shows",
  "scientists confirm",
  "university study",
  "official announcement",
  "government confirms",
  "peer reviewed"
]

/-- `FactualAccuracyGuardian.check_factual_accuracy` (source lines 1121-1150):
returns `(is_accurate, reason)`. -/
def check_factual_accuracy (a : Article) : Bool × String :=
  let ft := full_text a
  if SPECULATION_KEYWORDS.any (fun k => strHasSub ft k) then
    (false, "Contains speculation or unverified claims")
  else if CLICKBAIT_PATTERNS.any (fun p => strHasSub ft p) then
    (false, "Contains clickbait patterns")
  else if UNVERIFIED_MEDICAL_KEYWORDS.any (fun k => strHasSub ft k) &&
          !(VERIFICATION_MARKERS.any (fun m => strHasSub ft m)) then
    (false, "Medical claim without verification markers")
  else if a.source.getD "" = "" || a.source.getD "" = "Unknown" then
    (false, "Missing legitimate source")
  else if a.url.getD "" = "" then
    (false, "Missing source URL")
  else
    (true, "Factually accurate")

/-- `FactualAccuracyGuardian.filter_accurate_articles` (source lines
1152-1164). -/
def filter_accurate_articles (articles : List Article) : List Article :=
  articles.filter (fun a => (check_factual_accuracy a).1)

/-- Normalisation replacing each absent (`none`) optional field by the empty
string, used to state that `check_factual_accuracy` treats missing fields as
empty strings. -/
def fillEmpty (a : Article) : Article :=
  { a with
    title := some (a.title.getD "")
    description := some (a.description.getD "")
    content := some (a.content.getD "")
    url := some (a.url.getD "")
    source := some (a.source.getD "")
    published_at := some (a.published_at.getD "")
    summary := some (a.summary.getD "") }

/-! ## EmotionalSafetyFilter (source lines 1167-1305) -/

/-- `EmotionalSafetyFilter.CATEGORY_KEYWORDS`: the 9 fixed categories, each
with its trigger-phrase list, in the insertion order of the source dict. -/
def CATEGORY_KEYWORDS : List (String × List String) := [
  ("environment_healing", [
    "coral reef restoration", "nature recovery", "reforestation", "wildlife conservation",
    "species protection", "ocean healing", "habitat restoration", "ecological program",
    "conservation success", "endangered species", "biodiversity", "ecosystem recovery",
    "marine sanctuary", "forest regrowth", "clean water", "pollution reduction",
    "rewilding", "nature preserve", "wildlife sanctuary", "green spaces"
  ]),
  ("medical_hope", [
    "clinical trial success", "fda approval", "treatment advancement", "recovery outcome",
    "health improvement", "medical breakthrough", "new therapy", "disease treatment",
    "patient recovery", "healthcare success", "medical innovation", "healing",
    "cure approved", "treatment approved", "life-saving", "health victory"
  ]),
  ("peace_harmony", [
    "peace agreement", "ceasefire", "diplomatic resolution", "conflict resolution",
    "unity", "cooperation", "reconciliation", "harmony", "agreement reached",
    "neighbors unite", "community peace", "collaboration", "partnership",
    "nations agree", "treaty signed", "peaceful solution"
  ]),
  ("human_kindness", [
    "stranger helps", "volunteer", "charity success", "rescue", "kindness",
    "compassion", "donation", "community support", "heartwarming", "good samaritan",
    "helping hand", "generous", "fundraiser success", "community gives",
    "neighbors help", "act of kindness", "paying it forward", "good deed"
  ]),
  ("education_wins", [
    "scholarship", "student achievement", "teacher inspires", "learning program",
    "educational success", "graduation", "literacy program", "school success",
    "educational innovation", "students excel", "academic achievement",
    "mentorship program", "tutoring success", "educational opportunity"
  ]),
  ("women_empowerment", [
    "women-led", "female leadership", "women scientists", "women creators",
    "women entrepreneurs", "women in stem", "female founder", "women innovators",
    "women breaking barriers", "female pioneers", "women achieve",
    "women empowerment", "girls education", "women leaders"
  ]),
  ("ethical_innovation", [
    "renewable energy", "sustainable technology", "green technology", "clean energy",
    "accessibility technology", "assistive technology", "environmental technology",
    "solar power", "wind energy", "electric vehicle", "sustainable engineering",
    "carbon reduction", "eco-friendly innovation", "tech for good"
  ]),
  ("art_culture", [
    "museum", "art exhibition", "cultural festival", "heritage conservation",
    "children art", "creative project", "artistic community", "cultural celebration",
    "music festival", "dance performance", "theater", "gallery opening",
    "cultural heritage", "art installation", "creative workshop"
  ]),
  ("feel_good", [
    "heartwarming", "uplifting", "inspiring", "beautiful", "joyful", "celebration",
    "happiness", "wonderful", "amazing story", "touching", "delightful",
    "precious moment", "feel-good", "wholesome", "adorable"
  ])
]

/-- `EmotionalSafetyFilter.REJECT_KEYWORDS` (the stress/crisis denylist). -/
def REJECT_KEYWORDS : List String := [
  "crisis", "shortage", "suicide", "violence", "shooting", "attack", "murder",
  "war", "combat", "battle", "conflict", "crime", "corruption", "scandal",
  "controversy", "disaster", "catastrophe", "emergency", "threat", "danger",
  "fear", "terror", "tragic", "death toll", "casualties", "victim",
  "collapse", "crash", "failure", "bankruptcy", "layoff", "recession",
  "pandemic", "outbreak", "epidemic", "infection surge", "hospital overwhelmed",
  "supply shortage", "food bank empty", "running out", "desperate",
  "alarming", "concerning", "worrying", "devastating", "horrific"
]

/-- `EmotionalSafetyFilter.CRISIS_PATTERNS`; each regex is a literal phrase,
embedded as a substring target. -/
def CRISIS_PATTERNS : List String := [
  "running low on",
  "supplies dwindling",
  "in short supply",
  "desperate need",
  "critically low",
  "struggling to meet",
  "faces shortage"
]

/-- `EmotionalSafetyFilter.check_category_match` (source lines 1251-1264):
returns `(matched_any, matched_category_names)` with the category names in
dict insertion order. -/
def check_category_match (a : Article) : Bool × List String :=
  let ft := full_text a
  let matched :=
    (CATEGORY_KEYWORDS.filter
      (fun ck => ck.2.any (fun k => strHasSub ft (lowerStr k)))).map (fun ck => ck.1)
  (decide (matched.length > 0), matched)

/-- `EmotionalSafetyFilter.check_emotional_safety` (source lines 1266-1286).
The final branch embeds `len(description) < len(title) * 1.5` as
`2 * len(description) < 3 * len(title)` (exact for the string lengths at
hand, since `len(title) * 1.5` is computed exactly in floating point). -/
def check_emotional_safety (a : Article) : Bool × String :=
  let title := getLow a.title
  let description := getLow a.description
  let ft := full_text a
  match REJECT_KEYWORDS.find? (fun k => strHasSub ft (lowerStr k)) with
  | some keyword => (false, "Contains stress keyword: " ++ keyword)
  | none =>
    if CRISIS_PATTERNS.any (fun p => strHasSub ft p) then
      (false, "Contains crisis framing pattern")
    else if (strHasSub description title || strHasSub title description) &&
            decide (2 * description.length < 3 * title.length) then
      (false, "Description repeats headline")
    else
      (true, "Emotionally safe")

/-- `EmotionalSafetyFilter.apply_amulya_filter` (source lines 1288-1305):
keeps the articles passing both the category match and the emotional-safety
check, attaching the matched categories. -/
def apply_amulya_filter (articles : List Article) : List Article :=
  articles.filterMap (fun a =>
    let hc := check_category_match a
    let hs := check_emotional_safety a
    if hc.1 && hs.1 then some { a with amulya_categories := hc.2 } else none)

/-! ## ContentGuarantee (source lines 1524-1604) -/

/-- `ContentGuarantee.EMERGENCY_STORIES`: the static fallback pool of five
curated stories.  The source sets each `published_at` to
`datetime.now().isoformat()` when the class body is evaluated; that dynamic
timestamp is abstracted as the parameter `now` (no claim depends on it). -/
def EMERGENCY_STORIES (now : String) : List Article := [
  { title := some "Ocean Guardians: Coral Reefs Show Remarkable Recovery",
    summary := some "In the warm embrace of protected waters, coral reefs are painting a story of hope and resilience. Scientists have discovered that carefully nurtured marine sanctuaries are witnessing the gentle return of vibrant coral colonies, their colors blooming like underwater gardens. These delicate ecosystems, once thought to be beyond recovery, are now thriving with renewed life. The soft sway of healthy coral branches shelters countless species, creating safe havens beneath the waves. This beautiful transformation reminds us that with patient care and dedicated protection, nature possesses an extraordinary ability to heal and flourish once more.",
    url := some "https://oceanconservancy.org",
    source := some "Ocean Conservation",
    published_at := some now,
    amulya_categories := ["environment_healing"] },
  { title := some "A Community\x27s Gentle Gift: Neighbors Create Beautiful Garden for Elderly Residents",
    summary := some "In a heartwarming display of community love, neighbors came together to create something truly special. With gentle hands and caring hearts, they transformed a neglected space into a serene garden sanctuary for elderly residents. Soft petals of roses and lavender now greet visitors, while comfortable benches offer peaceful resting spots. The project brought together volunteers of all ages, each contributing their unique gifts to this labor of love. Now, seniors can enjoy morning sunshine surrounded by blooming flowers, butterflies dancing on the breeze, and the warm companionship of neighbors who truly care. This beautiful gesture shows how small acts of kindness can blossom into lasting joy.",
    url := some "https://example.com/community-garden",
    source := some "Community News",
    published_at := some now,
    amulya_categories := ["human_kindness"] },
  { title := some "Young Scientists Shine: Students\x27 Environmental Project Wins National Recognition",
    summary := some "A group of dedicated students has captured hearts and minds with their innovative environmental project. These young changemakers designed a beautiful system to purify water using natural, sustainable materials. Their gentle approach combines scientific knowledge with deep care for the planet, creating solutions that work in harmony with nature. Teachers describe watching these students blossom as they worked together, supporting each other through challenges and celebrating every small victory. The project has now inspired other schools to embrace similar initiatives, spreading ripples of positive change. These bright young minds remind us that the future is in caring, capable hands, and that hope grows wherever passion meets purpose.",
    url := some "https://example.com/student-achievement",
    source := some "Education Today",
    published_at := some now,
    amulya_categories := ["education_wins", "environment_healing"] },
  { title := some "Butterfly Haven: Restored Meadow Becomes Sanctuary for Endangered Species",
    summary := some "A once-barren field has transformed into a breathtaking butterfly sanctuary, filled with gentle wings and colorful blooms. Conservation teams carefully planted native wildflowers, creating a soft tapestry of colors that dance in the breeze. Endangered butterfly species have returned to this haven, their delicate presence a sign of healing and hope. Visitors now walk among peaceful meadows, watching these beautiful creatures flutter from flower to flower. The sanctuary has become a place of wonder, where families can witness nature\x27s quiet magic and children can learn about protecting our precious ecosystems. This transformation shows how dedication and gentle care can bring endangered beauty back to life.",
    url := some "https://example.com/butterfly-sanctuary",
    source := some "Wildlife Conservation",
    published_at := some now,
    amulya_categories := ["environment_healing"] },
  { title := some "Women-Led Initiative Brings Clean Energy to Rural Communities",
    summary := some "A team of inspiring women engineers has created a beautiful solution that brings light and hope to remote villages. Their solar energy project combines technical excellence with deep compassion, ensuring that families can now enjoy clean, sustainable power. These remarkable women worked alongside community members, teaching and empowering them to maintain the systems themselves. The soft glow of solar-powered lights now illuminates homes, schools, and community centers, replacing the darkness with gentle, reliable brightness. Children can study in the evenings, and families can gather safely after sunset. This woman-led initiative demonstrates how innovation rooted in care and understanding can transform lives and create lasting positive change in the world.",
    url := some "https://example.com/women-clean-energy",
    source := some "Sustainable Future",
    published_at := some now,
    amulya_categories := ["women_empowerment", "ethical_innovation"] }
]

/-- `ContentGuarantee.ensure_minimum_stories` (source lines 1586-1599).
`random.sample(pool, k)` is abstracted as the parameter `sample`
(see `SampleOK`); the source always calls it with
`k = min(needed, len(pool))`, so the call is in-range.  The source defaults
are `minimum = 3`, `maximum = 5`. -/
def ensure_minimum_stories (now : String)
    (sample : List Article → Nat → List Article)
    (articles : List Article) (minimum maximum : Nat) :
    List Article :=
  if articles.length ≥ minimum then
    articles.take maximum
  else
    let needed := minimum - articles.length
    let emergency_selection :=
      sample (EMERGENCY_STORIES now) (min needed (EMERGENCY_STORIES now).length)
    (articles ++ emergency_selection).take maximum

/-- The contract of `random.sample(pool, k)` for in-range `k`: the result has
exactly `k` elements and every element is drawn from `pool`. -/
def SampleOK (sample : List Article → Nat → List Article) : Prop :=
  ∀ (pool : List Article) (k : Nat), k ≤ pool.length →
    (sample pool k).length = k ∧ ∀ x ∈ sample pool k, x ∈ pool

/-- A concrete selection function satisfying `SampleOK`, used to instantiate
witnesses (a deterministic stand-in for one possible draw of
`random.sample`). -/
def sampleTake (pool : List Article) (k : Nat) : List Article := pool.take k

/-- A history-store record as described for the pipeline
(`{id, url, title, sent_at}`). -/
structure HistoryEntry where
  id : String
  url : String
  title : String
  sent_at : String
deriving Repr, DecidableEq

/-- `ensure_minimum_stories` together with its effect on a history store of
previously sent stories.  The source body (lines 1586-1599) performs no read
of and no write to any history store — no such store exists anywhere in
`morningglow.py` — so the ambient store `h` is passed through unchanged and
has no influence on the selection.  This wrapper makes that (absent) effect
explicit so that history-related claims can be stated. -/
def ensure_minimum_stories_history (now : String)
    (sample : List Article → Nat → List Article)
    (h : List HistoryEntry)
    (articles : List Article) (minimum maximum : Nat) :
    List Article × List HistoryEntry :=
  (ensure_minimum_stories now sample articles minimum maximum, h)

/-! ## SilentGuardian and the top-level flow (source lines 1791-1866)

Python exceptions are embedded as `Except ε` values: a computation that may
raise is a function into `Except ε α`, `try/except` is a `match` on that
value, and Python's `None` result becomes `Option.none`. -/

/-- `SilentGuardian.ensure_ritual` (source lines 1806-1816): the decorator
wrapping a computation in `try/except Exception`, returning the computed
value on success and `None` when any exception is raised. -/
def ensure_ritual {ε α : Type} (f : Unit → Except ε α) : Unit → Option α :=
  fun u =>
    match f u with
    | Except.ok v => some v
    | Except.error _ => none

/-- `sacred_morning_flow_with_accuracy` (source lines 1819-1866), decorated
with `@SilentGuardian.ensure_ritual`.  Its body fetches, filters, summarises
and emails via external collaborators and returns the final story list; that
body is abstracted as the fallible computation `body` (returning the final
story list or raising), and the decorator semantics is applied to it exactly
as in the source. -/
def sacred_morning_flow_with_accuracy
    (body : Unit → Except String (List Article)) : Option (List Article) :=
  ensure_ritual body ()

/-! ## Concrete articles and history entries used in witnesses and
counterexamples -/

/-- A candidate article whose URL also occurs in the history store below. -/
def seenArticle : Article :=
  { title := some "Dolphin rescue brings joy to the harbour",
    description := some "Volunteers guided a stranded dolphin back to sea in a heartwarming moment for everyone watching.",
    content := some "The whole town cheered for the gentle rescue.",
    url := some "https://example.com/dolphin",
    source := some "Harbour Times" }

/-- A history-store entry recording that `seenArticle.url` was already sent
this same morning (hence inside any recency window). -/
def seenEntry : HistoryEntry :=
  { id := "https://example.com/dolphin",
    url := "https://example.com/dolphin",
    title := "Dolphin rescue brings joy to the harbour",
    sent_at := "2026-10-12T06:00:00" }

/-- A never-seen candidate article. -/
def freshArticle1 : Article :=
  { title := some "Garden volunteers plant trees",
    url := some "https://example.com/garden",
    source := some "Town News" }

/-- Another never-seen candidate article. -/
def freshArticle2 : Article :=
  { title := some "Library opens reading room",
    url := some "https://example.com/library",
    source := some "Town News" }

/-- Six distinct candidate articles (Scenario 1 shape). -/
def sixCandidates : List Article :=
  [ { title := some "Candidate story one", url := some "https://example.org/1", source := some "Wire" },
    { title := some "Candidate story two", url := some "https://example.org/2", source := some "Wire" },
    { title := some "Candidate story three", url := some "https://example.org/3", source := some "Wire" },
    { title := some "Candidate story four", url := some "https://example.org/4", source := some "Wire" },
    { title := some "Candidate story five", url := some "https://example.org/5", source := some "Wire" },
    { title := some "Candidate story six", url := some "https://example.org/6", source := some "Wire" } ]

/-- An article matching the human_kindness category, with an empty
description and no denylist or crisis match. -/
def kindnessNoDesc : Article :=
  { title := some "Kindness",
    description := some "",
    content := some "",
    url := some "https://example.com/kindness",
    source := some "Wire" }

/-- An article containing both the category trigger "clinical trial success"
and the denylist keyword "crisis" (Scenario 4 shape). -/
def crisisTrial : Article :=
  { title := some "Clinical trial success amid crisis",
    description := some "A detailed report on the clinical trial success announced this week by researchers.",
    content := some "",
    url := some "https://example.com/trial",
    source := some "Wire" }

/-- The Scenario 3 article: its title contains the speculation keywords
"might" and "possibly". -/
def speculativeArticle : Article :=
  { title := some "Scientists might possibly find cure" }

/-- An article with an unverified medical claim and no verification marker. -/
def medNoMarker : Article :=
  { title := some "Cancer cured in new treatment",
    url := some "https://example.com/cure",
    source := some "Wire" }

/-- An article with an unverified medical claim and a verification marker. -/
def medWithMarker : Article :=
  { title := some "Cancer cured in clinical trial",
    url := some "https://example.com/trial2",
    source := some "Wire" }

/-- An article whose text contains "mayor", which contains the speculation
keyword "may" as a raw substring. -/
def mayorArticle : Article :=
  { title := some "The mayor opened a new park",
    url := some "https://example.com/park",
    source := some "Town News" }

/-- An article with a non-empty title and a missing description, with no
denylist or crisis match. -/
def gentleArticle : Article :=
  { title := some "A gentle morning",
    url := some "https://example.com/morning",
    source := some "Town News" }

/-! ## Helper lemmas -/

/-- Substring containment is transitive: if `a` occurs in `b` and `b` occurs
in `c`, then `a` occurs in `c`. -/
theorem strHasSub_trans {a b c : String} (h1 : strHasSub b a = true)
    (h2 : strHasSub c b = true) : strHasSub c a = true := by
  simp only [strHasSub, decide_eq_true_eq] at *
  exact h1.trans h2

/-- The empty string occurs in every string. -/
theorem strHasSub_empty (s : String) : strHasSub s "" = true := by
  simp [strHasSub]

/-- `sampleTake` satisfies the `random.sample` contract. -/
theorem sampleTake_ok : SampleOK sampleTake := by
  intro pool k hk
  constructor
  · simp [sampleTake, List.length_take]
    omega
  · intro x hx
    exact List.take_subset _ _ hx

/-! ## Claims -/

/-- Claim C1: for every candidate list and parameters with
`minimum ≤ maximum` and a fallback pool of at least `minimum` entries (the
static pool has 5), `ensure_minimum_stories` returns between `minimum` and
`maximum` stories inclusive; in particular, when the candidate list is empty
and `minimum` is positive it never returns zero stories. -/
theorem ensure_minimum_stories_count_bounds (now : String)
    (sample : List Article → Nat → List Article) (hs : SampleOK sample)
    (articles : List Article) (minimum maximum : Nat)
    (hmm : minimum ≤ maximum)
    (hpool : minimum ≤ (EMERGENCY_STORIES now).length) :
    minimum ≤ (ensure_minimum_stories now sample articles minimum maximum).length ∧
    (ensure_minimum_stories now sample articles minimum maximum).length ≤ maximum ∧
    (articles = [] → 0 < minimum →
      ensure_minimum_stories now sample articles minimum maximum ≠ []) := by
  have key : minimum ≤ (ensure_minimum_stories now sample articles minimum maximum).length ∧
      (ensure_minimum_stories now sample articles minimum maximum).length ≤ maximum := by
    unfold ensure_minimum_stories
    by_cases h : articles.length ≥ minimum
    · rw [if_pos h, List.length_take]
      omega
    · rw [if_neg h]
      have hk : min (minimum - articles.length) (EMERGENCY_STORIES now).length
          ≤ (EMERGENCY_STORIES now).length := min_le_right _ _
      have hlen := (hs (EMERGENCY_STORIES now) _ hk).1
      rw [List.length_take, List.length_append, hlen]
      omega
  refine ⟨key.1, key.2, ?_⟩
  intro _ hpos hnil
  have h1 := key.1
  rw [hnil] at h1
  simp at h1
  omega

/-- Witness for C1: empty candidate list, `minimum = 3`, `maximum = 5`, one
concrete admissible draw of `random.sample`; between 3 and 5 stories come
back and the result is non-empty. -/
theorem ensure_minimum_stories_count_bounds_witness :
    3 ≤ (ensure_minimum_stories "" sampleTake [] 3 5).length ∧
    (ensure_minimum_stories "" sampleTake [] 3 5).length ≤ 5 ∧
    (([] : List Article) = [] → 0 < 3 →
      ensure_minimum_stories "" sampleTake [] 3 5 ≠ []) :=
  ensure_minimum_stories_count_bounds "" sampleTake sampleTake_ok [] 3 5
    (by decide) (by decide)

/-- Claim C2 counterexample: the history store already holds an entry with
the same URL as `seenArticle`, sent the same morning (hence inside any
recency window), yet the guarantee step returns the candidate list with no
exclusion at all — in particular it is false that the URL-matching article
"never appears in the result" — and it returns the store unchanged, so the
identifiers of the final selection are not appended either. -/
theorem guarantee_no_history_dedup_cex :
    seenArticle.url = some seenEntry.url ∧
    (ensure_minimum_stories_history "" sampleTake [seenEntry]
      [seenArticle, freshArticle1, freshArticle2] 3 5).1 =
      [seenArticle, freshArticle1, freshArticle2] ∧
    ¬(seenArticle ∉ (ensure_minimum_stories_history "" sampleTake [seenEntry]
      [seenArticle, freshArticle1, freshArticle2] 3 5).1) ∧
    (ensure_minimum_stories_history "" sampleTake [seenEntry]
      [seenArticle, freshArticle1, freshArticle2] 3 5).2 = [seenEntry] := by
  decide

/-- Claim C2 (amended): the guarantee step neither filters the candidates
against previously sent identifiers nor records the final selection: the
selected stories are independent of the history store (the same list comes
back for any two stores `h` and `h'`), the store is returned unchanged, and a
candidate among the first `maximum` arrivals appears in the result whenever
at least `minimum` candidates arrived — regardless of any store entry with
the same URL. -/
theorem guarantee_ignores_history (now : String)
    (sample : List Article → Nat → List Article) (h h' : List HistoryEntry)
    (articles : List Article) (a : Article) (minimum maximum : Nat)
    (hlen : minimum ≤ articles.length) (hmem : a ∈ articles.take maximum) :
    (ensure_minimum_stories_history now sample h articles minimum maximum).2 = h ∧
    (ensure_minimum_stories_history now sample h articles minimum maximum).1 =
      (ensure_minimum_stories_history now sample h' articles minimum maximum).1 ∧
    a ∈ (ensure_minimum_stories_history now sample h articles minimum maximum).1 := by
  refine ⟨rfl, rfl, ?_⟩
  show a ∈ ensure_minimum_stories now sample articles minimum maximum
  unfold ensure_minimum_stories
  rw [if_pos hlen]
  exact hmem

/-- Witness for the amended C2: with the same-URL entry in the store versus
an empty store, the same stories come back, the store is unchanged, and the
URL-matching candidate is selected. -/
theorem guarantee_ignores_history_witness :
    (ensure_minimum_stories_history "" sampleTake [seenEntry]
      [seenArticle, freshArticle1, freshArticle2] 3 5).2 = [seenEntry] ∧
    (ensure_minimum_stories_history "" sampleTake [seenEntry]
      [seenArticle, freshArticle1, freshArticle2] 3 5).1 =
      (ensure_minimum_stories_history "" sampleTake []
        [seenArticle, freshArticle1, freshArticle2] 3 5).1 ∧
    seenArticle ∈ (ensure_minimum_stories_history "" sampleTake [seenEntry]
      [seenArticle, freshArticle1, freshArticle2] 3 5).1 :=
  guarantee_ignores_history "" sampleTake [seenEntry] []
    [seenArticle, freshArticle1, freshArticle2] seenArticle 3 5
    (by decide) (by decide)

/-- Claim C4 counterexample: on the Scenario 1 input — six never-seen
candidates, `minimum = 3`, `maximum = 5`, empty history store — the result is
exactly the first five candidates (that part of the claim holds), but the
history store gains no entry at all instead of one entry per returned
story. -/
theorem guarantee_no_history_append_cex :
    (ensure_minimum_stories_history "" sampleTake [] sixCandidates 3 5).1 =
      sixCandidates.take 5 ∧
    (ensure_minimum_stories_history "" sampleTake [] sixCandidates 3 5).1.length = 5 ∧
    (ensure_minimum_stories_history "" sampleTake [] sixCandidates 3 5).2.length = 0 ∧
    ¬((ensure_minimum_stories_history "" sampleTake [] sixCandidates 3 5).2.length =
      (ensure_minimum_stories_history "" sampleTake [] sixCandidates 3 5).1.length) := by
  decide

/-- Claim C4 (amended): with at least `minimum` surviving candidates the
guarantee step returns exactly the first `maximum` candidates in arrival
order, every returned story comes from the candidate list (no fallback story
appears), and the history store is returned unchanged (it gains no
entries). -/
theorem guarantee_first_max_no_append (now : String)
    (sample : List Article → Nat → List Article) (h : List HistoryEntry)
    (articles : List Article) (minimum maximum : Nat)
    (hlen : minimum ≤ articles.length) :
    (ensure_minimum_stories_history now sample h articles minimum maximum).1 =
      articles.take maximum ∧
    (∀ x ∈ (ensure_minimum_stories_history now sample h articles minimum maximum).1,
      x ∈ articles) ∧
    (ensure_minimum_stories_history now sample h articles minimum maximum).2 = h := by
  have h1 : (ensure_minimum_stories_history now sample h articles minimum maximum).1 =
      articles.take maximum := by
    show ensure_minimum_stories now sample articles minimum maximum = _
    unfold ensure_minimum_stories
    rw [if_pos hlen]
  refine ⟨h1, ?_, rfl⟩
  intro x hx
  rw [h1] at hx
  exact List.take_subset _ _ hx

/-- Witness for the amended C4 on the Scenario 1 input. -/
theorem guarantee_first_max_no_append_witness :
    (ensure_minimum_stories_history "" sampleTake [] sixCandidates 3 5).1 =
      sixCandidates.take 5 ∧
    (∀ x ∈ (ensure_minimum_stories_history "" sampleTake [] sixCandidates 3 5).1,
      x ∈ sixCandidates) ∧
    (ensure_minimum_stories_history "" sampleTake [] sixCandidates 3 5).2 = [] :=
  guarantee_first_max_no_append "" sampleTake [] sixCandidates 3 5 (by decide)

/-- Claim C5: an article whose lower-cased concatenated text contains
speculation keywords with a count meeting or exceeding the rejection
threshold (the source rejects from the first match, i.e. threshold 1) is
rejected by `check_factual_accuracy` with the reason
"Contains speculation or unverified claims". -/
theorem speculation_rejected (a : Article)
    (h : 1 ≤ (SPECULATION_KEYWORDS.filter
      (fun k => strHasSub (full_text a) k)).length) :
    check_factual_accuracy a =
      (false, "Contains speculation or unverified claims") := by
  have hany : SPECULATION_KEYWORDS.any (fun k => strHasSub (full_text a) k) = true := by
    have hne : SPECULATION_KEYWORDS.filter (fun k => strHasSub (full_text a) k) ≠ [] := by
      intro hnil
      rw [hnil] at h
      simp at h
    obtain ⟨x, hx⟩ := List.exists_mem_of_ne_nil _ hne
    rw [List.mem_filter] at hx
    exact List.any_eq_true.mpr ⟨x, hx.1, hx.2⟩
  simp [check_factual_accuracy, hany]

/-- Witness for C5: the Scenario 3 title "Scientists might possibly find
cure" (its text contains the speculation keywords "might" and "possibly"). -/
theorem speculation_rejected_witness :
    check_factual_accuracy speculativeArticle =
      (false, "Contains speculation or unverified claims") :=
  speculation_rejected speculativeArticle (by decide)

/-- Claim C6: if an article's text contains an unverified-medical-claim
keyword while containing no speculation keyword and no clickbait pattern,
`check_factual_accuracy` rejects it with reason "Medical claim without
verification markers" when no verification-marker phrase is present, and
never returns that reason when at least one verification marker (e.g.
"clinical trial") is present. -/
theorem medical_claim_verification (a : Article)
    (hspec : ∀ k ∈ SPECULATION_KEYWORDS, strHasSub (full_text a) k = false)
    (hbait : ∀ p ∈ CLICKBAIT_PATTERNS, strHasSub (full_text a) p = false)
    (hmed : ∃ k ∈ UNVERIFIED_MEDICAL_KEYWORDS, strHasSub (full_text a) k = true) :
    ((∀ m ∈ VERIFICATION_MARKERS, strHasSub (full_text a) m = false) →
      check_factual_accuracy a =
        (false, "Medical claim without verification markers")) ∧
    ((∃ m ∈ VERIFICATION_MARKERS, strHasSub (full_text a) m = true) →
      (check_factual_accuracy a).2 ≠ "Medical claim without verification markers") := by
  have hspec' : SPECULATION_KEYWORDS.any (fun k => strHasSub (full_text a) k) = false := by
    apply List.any_eq_false.mpr
    intro x hx
    simp [hspec x hx]
  have hbait' : CLICKBAIT_PATTERNS.any (fun p => strHasSub (full_text a) p) = false := by
    apply List.any_eq_false.mpr
    intro x hx
    simp [hbait x hx]
  have hmed' : UNVERIFIED_MEDICAL_KEYWORDS.any (fun k => strHasSub (full_text a) k) = true := by
    obtain ⟨k, hk, hsub⟩ := hmed
    exact List.any_eq_true.mpr ⟨k, hk, hsub⟩
  constructor
  · intro hnomark
    have hmark : VERIFICATION_MARKERS.any (fun m => strHasSub (full_text a) m) = false := by
      apply List.any_eq_false.mpr
      intro x hx
      simp [hnomark x hx]
    simp [check_factual_accuracy, hspec', hbait', hmed', hmark]
  · intro hmark
    have hmark' : VERIFICATION_MARKERS.any (fun m => strHasSub (full_text a) m) = true := by
      obtain ⟨m, hm, hsub⟩ := hmark
      exact List.any_eq_true.mpr ⟨m, hm, hsub⟩
    simp only [check_factual_accuracy, hspec', hbait', hmed', hmark']
    simp only [Bool.not_true, Bool.and_false, Bool.false_eq_true, if_false]
    split
    · simp
    · split
      · simp
      · simp

/-- Witness for C6: "Cancer cured in new treatment" (no marker) is rejected
for the missing verification marker; "Cancer cured in clinical trial"
(marker present) is not rejected for that reason. -/
theorem medical_claim_verification_witness :
    check_factual_accuracy medNoMarker =
      (false, "Medical claim without verification markers") ∧
    (check_factual_accuracy medWithMarker).2 ≠
      "Medical claim without verification markers" :=
  ⟨(medical_claim_verification medNoMarker (by decide) (by decide) (by decide)).1
      (by decide),
   (medical_claim_verification medWithMarker (by decide) (by decide) (by decide)).2
      (by decide)⟩

/-- Claim C7: `check_factual_accuracy` is total and deterministic — a pure
function producing a `(Bool, reason)` pair for every article record — and an
absent (`None`/missing) optional field is treated exactly as the empty
string: normalising every absent field to `""` does not change the result. -/
theorem check_factual_accuracy_total (a : Article) :
    (∃ b reason, check_factual_accuracy a = (b, reason)) ∧
    check_factual_accuracy (fillEmpty a) = check_factual_accuracy a :=
  ⟨⟨(check_factual_accuracy a).1, (check_factual_accuracy a).2, rfl⟩, rfl⟩

/-- Witness for C7: the article record with every field missing. -/
theorem check_factual_accuracy_total_witness :
    (∃ b reason, check_factual_accuracy {} = (b, reason)) ∧
    check_factual_accuracy (fillEmpty {}) = check_factual_accuracy {} :=
  check_factual_accuracy_total {}

/-- Claim C8: the `ensure_ritual` decorator catches every exception raised
inside the decorated flow — whenever the flow body raises,
`sacred_morning_flow_with_accuracy` evaluates to `none` (Python `None`)
instead of propagating the exception to its caller. -/
theorem flow_swallows_exceptions
    (body : Unit → Except String (List Article)) (e : String)
    (hraise : body () = Except.error e) :
    sacred_morning_flow_with_accuracy body = none := by
  unfold sacred_morning_flow_with_accuracy ensure_ritual
  rw [hraise]

/-- Witness for C8: a flow body that raises. -/
theorem flow_swallows_exceptions_witness :
    sacred_morning_flow_with_accuracy (fun _ => Except.error "network down") = none :=
  flow_swallows_exceptions (fun _ => Except.error "network down") "network down" rfl

/-- Claim C9 (implicit): speculation matching is raw substring containment
without word boundaries, so any article whose text contains "mayor" (which
contains the keyword "may") or "potentially" (which contains the keyword
"potential") is rejected with the speculation reason. -/
theorem speculation_no_word_boundaries (a : Article)
    (h : strHasSub (full_text a) "mayor" = true ∨
         strHasSub (full_text a) "potentially" = true) :
    check_factual_accuracy a =
      (false, "Contains speculation or unverified claims") := by
  have hany : SPECULATION_KEYWORDS.any (fun k => strHasSub (full_text a) k) = true := by
    rcases h with h | h
    · exact List.any_eq_true.mpr ⟨"may", by decide, strHasSub_trans (by decide) h⟩
    · exact List.any_eq_true.mpr ⟨"potential", by decide, strHasSub_trans (by decide) h⟩
  simp [check_factual_accuracy, hany]

/-- Witness for C9: a title mentioning a mayor, with no speculation intended,
is still rejected as speculative. -/
theorem speculation_no_word_boundaries_witness :
    check_factual_accuracy mayorArticle =
      (false, "Contains speculation or unverified claims") :=
  speculation_no_word_boundaries mayorArticle (Or.inl (by decide))

/-- Claim C10 (implicit): an article with a non-empty title and an empty or
missing description whose text contains no denylist keyword and no crisis
pattern is rejected by `check_emotional_safety` with reason
"Description repeats headline" — the empty description is a substring of the
title and its length is below 1.5 times the title's length — and such an
article is therefore never accepted by `apply_amulya_filter`, regardless of
category matches. -/
theorem empty_description_rejected (a : Article)
    (htitle : 0 < (getLow a.title).length)
    (hdesc : a.description.getD "" = "")
    (hdeny : ∀ k ∈ REJECT_KEYWORDS, strHasSub (full_text a) (lowerStr k) = false)
    (hcrisis : ∀ p ∈ CRISIS_PATTERNS, strHasSub (full_text a) p = false) :
    check_emotional_safety a = (false, "Description repeats headline") ∧
    apply_amulya_filter [a] = [] := by
  have hd : getLow a.description = "" := by
    rw [getLow, hdesc]
    rfl
  have hfind : REJECT_KEYWORDS.find?
      (fun k => strHasSub (full_text a) (lowerStr k)) = none := by
    rw [List.find?_eq_none]
    intro k hk
    simp [hdeny k hk]
  have hcr : CRISIS_PATTERNS.any (fun p => strHasSub (full_text a) p) = false := by
    rw [List.any_eq_false]
    intro p hp
    simp [hcrisis p hp]
  have hsafe : check_emotional_safety a = (false, "Description repeats headline") := by
    simp only [check_emotional_safety]
    rw [hfind, hcr, hd]
    simp [strHasSub_empty]
    omega
  refine ⟨hsafe, ?_⟩
  have h1 : (check_emotional_safety a).1 = false := by rw [hsafe]
  simp [apply_amulya_filter, h1]

/-- Witness for C10: "A gentle morning" with a missing description. -/
theorem empty_description_rejected_witness :
    check_emotional_safety gentleArticle = (false, "Description repeats headline") ∧
    apply_amulya_filter [gentleArticle] = [] :=
  empty_description_rejected gentleArticle (by decide) (by decide)
    (by decide) (by decide)

/-- Claim C3 counterexample: `kindnessNoDesc` matches a category
("kindness" triggers human_kindness) and its text contains no denylist
keyword and no crisis-framing pattern, yet `apply_amulya_filter` rejects it —
the emotional-safety check also rejects articles whose (here empty)
description repeats the headline, so acceptance is not equivalent to
"some category matched and no denylist/crisis pattern matched". -/
theorem amulya_accept_iff_cex :
    (check_category_match kindnessNoDesc).1 = true ∧
    (∀ k ∈ REJECT_KEYWORDS,
      strHasSub (full_text kindnessNoDesc) (lowerStr k) = false) ∧
    (∀ p ∈ CRISIS_PATTERNS, strHasSub (full_text kindnessNoDesc) p = false) ∧
    apply_amulya_filter [kindnessNoDesc] = [] := by
  decide

/-- Claim C3 (amended): `apply_amulya_filter` accepts an article exactly when
at least one of the 9 category keyword lists matches the lower-cased
concatenated text AND the emotional-safety check passes, where passing means:
no denylist keyword matches, no crisis-framing pattern matches, and the
description does not repeat the headline (one being a substring of the other
with the description shorter than 1.5 times the title).  On acceptance the
matched category set is attached to the article, and a denylist keyword match
alone forces rejection even when a category trigger is present. -/
theorem amulya_accept_iff (a : Article) :
    (apply_amulya_filter [a] =
      if (check_category_match a).1 && (check_emotional_safety a).1 then
        [{ a with amulya_categories := (check_category_match a).2 }]
      else []) ∧
    ((check_emotional_safety a).1 = true ↔
      ((∀ k ∈ REJECT_KEYWORDS, strHasSub (full_text a) (lowerStr k) = false) ∧
       (∀ p ∈ CRISIS_PATTERNS, strHasSub (full_text a) p = false) ∧
       ¬((strHasSub (getLow a.description) (getLow a.title) = true ∨
          strHasSub (getLow a.title) (getLow a.description) = true) ∧
         2 * (getLow a.description).length < 3 * (getLow a.title).length))) ∧
    ((∃ k ∈ REJECT_KEYWORDS, strHasSub (full_text a) (lowerStr k) = true) →
      apply_amulya_filter [a] = []) := by
  have hfilter : apply_amulya_filter [a] =
      if (check_category_match a).1 && (check_emotional_safety a).1 then
        [{ a with amulya_categories := (check_category_match a).2 }]
      else [] := by
    cases hc1 : (check_category_match a).1 with
    | false => simp [apply_amulya_filter, hc1]
    | true =>
      cases hs1 : (check_emotional_safety a).1 with
      | false => simp [apply_amulya_filter, hc1, hs1]
      | true => simp [apply_amulya_filter, hc1, hs1]
  have hsafe : (check_emotional_safety a).1 = true ↔
      ((∀ k ∈ REJECT_KEYWORDS, strHasSub (full_text a) (lowerStr k) = false) ∧
       (∀ p ∈ CRISIS_PATTERNS, strHasSub (full_text a) p = false) ∧
       ¬((strHasSub (getLow a.description) (getLow a.title) = true ∨
          strHasSub (getLow a.title) (getLow a.description) = true) ∧
         2 * (getLow a.description).length < 3 * (getLow a.title).length)) := by
    cases hf : REJECT_KEYWORDS.find? (fun k => strHasSub (full_text a) (lowerStr k)) with
    | some k =>
      have hk : k ∈ REJECT_KEYWORDS := List.mem_of_find?_eq_some hf
      have hpk := List.find?_some hf
      simp only at hpk
      constructor
      · intro habs
        simp only [check_emotional_safety] at habs
        rw [hf] at habs
        simp at habs
      · rintro ⟨hall, -, -⟩
        have := hall k hk
        rw [hpk] at this
        simp at this
    | none =>
      have hnone := List.find?_eq_none.mp hf
      simp only [check_emotional_safety]
      rw [hf]
      by_cases hc : (CRISIS_PATTERNS.any fun p => strHasSub (full_text a) p) = true
      · rw [if_pos hc]
        simp only [List.any_eq_true] at hc
        obtain ⟨p, hp, hsub⟩ := hc
        constructor
        · intro habs
          simp at habs
        · rintro ⟨-, hall, -⟩
          have := hall p hp
          rw [hsub] at this
          simp at this
      · rw [if_neg hc]
        simp only [List.any_eq_true] at hc
        push_neg at hc
        by_cases hr : ((strHasSub (getLow a.description) (getLow a.title) ||
            strHasSub (getLow a.title) (getLow a.description)) &&
            decide (2 * (getLow a.description).length < 3 * (getLow a.title).length)) = true
        · rw [if_pos hr]
          simp only [Bool.and_eq_true, Bool.or_eq_true, decide_eq_true_eq] at hr
          constructor
          · intro habs
            simp at habs
          · rintro ⟨-, -, hnr⟩
            exact absurd hr hnr
        · rw [if_neg hr]
          simp only [Bool.and_eq_true, Bool.or_eq_true, decide_eq_true_eq] at hr
          constructor
          · intro _
            refine ⟨?_, ?_, hr⟩
            · intro k hk
              have := hnone k hk
              simpa using this
            · intro p hp
              have := hc p hp
              simpa using this
          · intro _
            simp
  refine ⟨hfilter, hsafe, ?_⟩
  intro hdeny
  have hfalse : (check_emotional_safety a).1 = false := by
    obtain ⟨k, hk, hsub⟩ := hdeny
    cases hval : (check_emotional_safety a).1 with
    | false => rfl
    | true =>
      have := (hsafe.mp hval).1 k hk
      rw [hsub] at this
      simp at this
  rw [hfilter, hfalse]
  simp

set_option maxRecDepth 8000 in
/-- Witness for the amended C3 at the Scenario 4 article `crisisTrial`: the
category trigger "clinical trial success" matches, but the denylist keyword
"crisis" forces rejection. -/
theorem amulya_accept_iff_witness :
    (check_category_match crisisTrial).1 = true ∧
    apply_amulya_filter [crisisTrial] = [] :=
  ⟨by decide, (amulya_accept_iff crisisTrial).2.2 (by decide)⟩

end MorningGlow
